import Mathlib

/-!
Verification development for a browser weather-lookup client.

The source (JavaScript) consists of:
  * an error taxonomy (`NetworkError` / `BusinessError`),
  * a TTL cache (`CacheWithTTL`) and an ETag cache (`ETagCache`),
  * a resilient fetch helper (`fetchWithRetry`) with timeout, cancellation
    and exponential-backoff retry,
  * a weather client (`getWeatherByCity`) and a paginated city client
    (`getCitiesPaginated`) layered on top.

The embedding below is shallow: JavaScript `Date.now()` becomes an explicit
`now : Nat` argument, the mutable `Map` state of each cache is threaded
explicitly, and one network attempt performed by the `fetch` primitive is an
`AttemptEvent` supplied by the environment (the server).  JavaScript `null`
is modelled by `Option.none` wherever the source can store or return it.
-/

set_option autoImplicit false

namespace WeatherApp

/-! ## Error taxonomy

JavaScript errors are objects carrying a `name`, a `message` and, for the two
custom classes of the source, the capability flags `isNetworkError` /
`isBusinessError` plus optional `code` and `statusCode` fields.  A raw
platform error (`TypeError`, `AbortError`, ...) has both flags absent, which
the source reads as falsy. -/

structure JSError where
  name : String
  message : String
  isNetworkError : Bool
  isBusinessError : Bool
  code : Option String
  statusCode : Option Nat
  deriving Repr, DecidableEq

/-- `new NetworkError(message, statusCode = null)` from the source:
sets `name = 'NetworkError'` and `isNetworkError = true`. -/
def NetworkError (message : String) (statusCode : Option Nat) : JSError :=
  { name := "NetworkError", message := message, isNetworkError := true,
    isBusinessError := false, code := none, statusCode := statusCode }

/-- `new BusinessError(message, code = null, statusCode = null)` from the
source: sets `name = 'BusinessError'` and `isBusinessError = true`. -/
def BusinessError (message : String) (code : Option String)
    (statusCode : Option Nat) : JSError :=
  { name := "BusinessError", message := message, isNetworkError := false,
    isBusinessError := true, code := code, statusCode := statusCode }

/-- A raw platform error (e.g. `TypeError` from a failed `fetch`, or the
`AbortError` `DOMException` produced by an `AbortController`): neither
capability flag is set and no `code`/`statusCode` field exists. -/
def rawError (name message : String) : JSError :=
  { name := name, message := message, isNetworkError := false,
    isBusinessError := false, code := none, statusCode := none }

/-! ## TTL cache (`CacheWithTTL`)

`cache` models the JavaScript `Map` as an association list; `List.lookup`
models `Map.get`.  A stored value of `none` models a stored JavaScript
`null`. -/

structure CacheEntry (α : Type) where
  value : Option α
  expiresAt : Nat
  deriving Repr, DecidableEq

structure CacheWithTTL (α : Type) where
  cache : List (String × CacheEntry α)
  ttlMs : Nat
  deriving Repr, DecidableEq

namespace CacheWithTTL

variable {α : Type}

/-- `new CacheWithTTL(ttlMs)`: empty map, configured TTL. -/
def empty (ttlMs : Nat) : CacheWithTTL α := ⟨[], ttlMs⟩

/-- `set(key, value)`: stores the value with `expiresAt = Date.now() + ttlMs`.
`Map.set` overwrites any previous binding for the key. -/
def set (c : CacheWithTTL α) (now : Nat) (key : String) (value : Option α) :
    CacheWithTTL α :=
  { c with cache :=
      (key, ⟨value, now + c.ttlMs⟩) :: c.cache.filter (fun p => p.1 != key) }

/-- `get(key)`: returns `null` if the key is absent; if the entry is expired
(`Date.now() > expiresAt`), deletes it and returns `null`; otherwise returns
the stored value.  The returned pair is (JavaScript return value, state of
the cache after the call). -/
def get (c : CacheWithTTL α) (now : Nat) (key : String) :
    Option α × CacheWithTTL α :=
  match c.cache.lookup key with
  | none => (none, c)
  | some entry =>
    if now > entry.expiresAt then
      (none, { c with cache := c.cache.filter (fun p => p.1 != key) })
    else
      (entry.value, c)

/-- `has(key)`: `return this.get(key) !== null;` — defined through `get`,
therefore it shares `get`'s lazy-eviction side effect. -/
def has (c : CacheWithTTL α) (now : Nat) (key : String) :
    Bool × CacheWithTTL α :=
  let r := c.get now key
  (r.1.isSome, r.2)

/-- State observation (not a source method): whether the underlying `Map`
physically holds an entry for `key`.  Used to state eviction and to
distinguish a stored `null` from a deleted entry. -/
def hasEntry (c : CacheWithTTL α) (key : String) : Bool :=
  (c.cache.lookup key).isSome

end CacheWithTTL

/-! ## ETag cache (`ETagCache`) -/

structure ETagEntry (α : Type) where
  etag : String
  data : α
  timestamp : Nat
  deriving Repr, DecidableEq

structure ETagCache (α : Type) where
  cache : List (String × ETagEntry α)
  deriving Repr, DecidableEq

namespace ETagCache

variable {α : Type}

/-- `new ETagCache()`. -/
def empty : ETagCache α := ⟨[]⟩

/-- `set(url, etag, data)`: overwrites any existing entry, recording
`timestamp = Date.now()`. -/
def set (c : ETagCache α) (url etag : String) (data : α) (now : Nat) :
    ETagCache α :=
  ⟨(url, ⟨etag, data, now⟩) :: c.cache.filter (fun p => p.1 != url)⟩

/-- `getETag(url)`: the stored validator, or `null`. -/
def getETag (c : ETagCache α) (url : String) : Option String :=
  (c.cache.lookup url).map ETagEntry.etag

/-- `getData(url)`: the stored payload, or `null`. -/
def getData (c : ETagCache α) (url : String) : Option α :=
  (c.cache.lookup url).map ETagEntry.data

/-- `has(url)`: pure existence check on the underlying `Map`. -/
def has (c : ETagCache α) (url : String) : Bool :=
  (c.cache.lookup url).isSome

end ETagCache

/-! ## Resilient fetch (`fetchWithRetry`)

One attempt of the loop body performs `fetch(url, {signal, headers})` and, on
an ok response, `response.json()`.  The environment (server plus transport)
determines what each attempt observes, so an attempt's raw outcome is an
input `AttemptEvent`:

  * `response r` — the `fetch` promise resolved with response `r`
    (body already parsed; the claims under study do not involve a failing
    `response.json()`);
  * `reject name message` — the `fetch` promise rejected with a raw platform
    error of that `name` (a timeout fired by the internal `AbortController`
    and an external cancellation both surface as `name = "AbortError"`;
    a connectivity failure surfaces as a `TypeError`).

`url`, `timeoutMs` and `headers` do not appear explicitly: they only shape
the environment's `events` function.  `sig i` is the value of
`signal?.aborted` observed in the `catch` block of attempt `i`
(`false` throughout when no external token is supplied). -/

structure Headers where
  etag : Option String
  link : Option String
  xTotalCount : Option String
  deriving Repr, DecidableEq

structure Response (α : Type) where
  status : Nat
  statusText : String
  headers : Headers
  body : α
  deriving Repr, DecidableEq

/-- `response.ok`: status in the inclusive range 200–299. -/
def Response.ok {α : Type} (r : Response α) : Bool :=
  decide (200 ≤ r.status ∧ r.status ≤ 299)

inductive AttemptEvent (α : Type) where
  | response (r : Response α)
  | reject (name message : String)
  deriving Repr, DecidableEq

/-- The value `{ data, headers, status }` returned by `fetchWithRetry` on a
2xx response. -/
structure FetchSuccess (α : Type) where
  data : α
  headers : Headers
  status : Nat
  deriving Repr, DecidableEq

/-- The `if (!response.ok)` classification ladder of `fetchWithRetry`,
applied to a non-ok status. -/
def classifyStatus (status : Nat) (statusText : String) : JSError :=
  if 500 ≤ status then
    NetworkError (s!"Ошибка сервера {status}: {statusText}") (some status)
  else if status = 404 then
    BusinessError "Ресурс не найден (404)" (some "NOT_FOUND") none
  else if status = 401 ∨ status = 403 then
    BusinessError (s!"Ошибка авторизации ({status})") (some "AUTH_ERROR") none
  else if status = 429 then
    BusinessError "Превышен лимит запросов (429)" (some "RATE_LIMIT")
      (some status)
  else
    NetworkError (s!"HTTP {status}: {statusText}") (some status)

/-- The `try` block of one loop iteration: a rejected `fetch` propagates the
raw error; an ok response yields `{ data, headers, status }`; a non-ok
response throws its classified error. -/
def runAttempt {α : Type} (ev : AttemptEvent α) :
    Except JSError (FetchSuccess α) :=
  match ev with
  | .reject name message => .error (rawError name message)
  | .response r =>
    if r.ok then .ok ⟨r.body, r.headers, r.status⟩
    else .error (classifyStatus r.status r.statusText)

/-- The code after the `while` loop: rethrow `lastError` if it is one of the
two classified kinds, else wrap it as a `NetworkError` naming the number of
attempts.  `lastError = none` models the (unreachable) case of the loop
exiting with `lastError` still `undefined`, where reading
`lastError.isNetworkError` would itself throw a `TypeError`. -/
def afterLoopThrow (retries : Nat) (lastError : Option JSError) : JSError :=
  match lastError with
  | none => rawError "TypeError" "Cannot read properties of undefined"
  | some e =>
    if e.isNetworkError ∨ e.isBusinessError then e
    else
      NetworkError
        (s!"Не удалось выполнить запрос после {retries + 1} попыток: "
          ++ e.message) none

/-- Observable trace of one `fetchWithRetry` call: how many attempts ran,
which backoff delays were slept, and the returned value or thrown error. -/
structure FetchLog (α : Type) where
  attemptsMade : Nat
  delays : List Nat
  result : Except JSError (FetchSuccess α)
  deriving Repr

/-- The `while (attempt <= retries)` loop of `fetchWithRetry`.  `fuel` is
`retries + 1 - attempt`, so `fuel = 0` is exactly the loop condition turning
false, upon which the code after the loop runs.  The `catch` block in order:
(1) `signal?.aborted || error.name === 'AbortError'` throws
`NetworkError('Запрос был отменен')`; (2) a business error is rethrown;
(3) with attempts remaining and a network error, sleep
`backoffMs * 2 ^ attempt` and loop; (4) otherwise `break` into the
after-loop code.  `lastError` is updated at the top of every `catch`. -/
def fetchLoop {α : Type} (events : Nat → AttemptEvent α) (sig : Nat → Bool)
    (retries backoffMs : Nat) :
    Nat → Nat → List Nat → Option JSError → FetchLog α
  | 0, attempt, delays, lastError =>
    ⟨attempt, delays, .error (afterLoopThrow retries lastError)⟩
  | fuel + 1, attempt, delays, _ =>
    match runAttempt (events attempt) with
    | .ok s => ⟨attempt + 1, delays, .ok s⟩
    | .error e =>
      if sig attempt ∨ e.name = "AbortError" then
        ⟨attempt + 1, delays, .error (NetworkError "Запрос был отменен" none)⟩
      else if e.isBusinessError then
        ⟨attempt + 1, delays, .error e⟩
      else if attempt < retries ∧ e.isNetworkError then
        fetchLoop events sig retries backoffMs fuel (attempt + 1)
          (delays ++ [backoffMs * 2 ^ attempt]) (some e)
      else
        ⟨attempt + 1, delays, .error (afterLoopThrow retries (some e))⟩

/-- `fetchWithRetry(url, { retries, backoffMs, timeoutMs, signal, headers })`:
runs the loop from `attempt = 0` with `lastError` undefined.  The loop body
runs at most `retries + 1` times. -/
def fetchWithRetry {α : Type} (events : Nat → AttemptEvent α)
    (sig : Nat → Bool) (retries backoffMs : Nat) : FetchLog α :=
  fetchLoop events sig retries backoffMs (retries + 1) 0 [] none

/-! ## String helpers used by the clients -/

/-- JavaScript `String.prototype.includes(pat)` for a non-empty pattern. -/
def strIncludes (s pat : String) : Bool :=
  decide ((s.splitOn pat).length > 1)

/-- JavaScript `parseInt` restricted to the shapes that occur here (an
`X-Total-Count` header is a plain decimal string): longest digit prefix of
the trimmed input, `none` for `NaN`. -/
def jsParseInt (s : String) : Option Nat :=
  let digits := s.trim.takeWhile Char.isDigit
  if digits.isEmpty then none else digits.toNat?

/-! ## Weather client (`getWeatherByCity`) -/

/-- `String.prototype.toLowerCase`, modelled character-wise (the city names
in play are plain letters). -/
def jsToLowerCase (s : String) : String :=
  ⟨s.data.map Char.toLower⟩

/-- `` `weather_${cityName.toLowerCase()}` `` -/
def weatherCacheKey (cityName : String) : String :=
  "weather_" ++ jsToLowerCase cityName

/-- The `catch` block of `getWeatherByCity`: cancellation first, then the
remaps to domain codes, then network passthrough, then the generic wrap. -/
def remapWeatherError (cityName : String) (e : JSError) : JSError :=
  if strIncludes e.message "отменен" ∨ e.name = "AbortError" then
    NetworkError "Запрос был отменен" none
  else if e.code = some "NOT_FOUND" ∨ e.statusCode = some 404 then
    BusinessError (s!"Город \"{cityName}\" не найден") (some "CITY_NOT_FOUND")
      none
  else if e.code = some "AUTH_ERROR" ∨ e.statusCode = some 401 then
    BusinessError "Ошибка API ключа. Используйте свой ключ OpenWeatherMap"
      (some "API_KEY_ERROR") none
  else if e.statusCode = some 429 then
    BusinessError
      "Превышен лимит запросов к API. Попробуйте позже или используйте свой API ключ"
      (some "RATE_LIMIT_EXCEEDED") none
  else if e.isNetworkError then
    e
  else
    NetworkError ("Ошибка загрузки погоды: " ++ e.message) none

/-- Observable outcome of one `getWeatherByCity` call: the returned
`{ ...payload, fromCache }` object or the thrown error, the state of the
module-level `weatherCache` after the call, and how many
`fetchWithRetry` calls were issued (0 or 1). -/
structure WeatherCallResult (α : Type) where
  outcome : Except JSError (α × Bool)
  cache : CacheWithTTL α
  networkCalls : Nat
  deriving Repr

/-- `getWeatherByCity(cityName, { ignoreCache, signal })`.

The outcome of the `fetchWithRetry` call the function would issue is the
input `fetchResult` (only consumed — and only counted as a network call —
when the cache is skipped or misses).  When `ignoreCache` is true the cache
is not read at all, so no lazy eviction happens on that path.  A cache hit
requires the stored value to be truthy (`if (cached)`), so a stored `null`
payload falls through to the network. -/
def getWeatherByCity {α : Type} (cityName : String) (ignoreCache : Bool)
    (cache0 : CacheWithTTL α) (now : Nat)
    (fetchResult : Except JSError (FetchSuccess α)) : WeatherCallResult α :=
  let cacheKey := weatherCacheKey cityName
  let cached : Option α :=
    if ignoreCache then none else (cache0.get now cacheKey).1
  let cache1 : CacheWithTTL α :=
    if ignoreCache then cache0 else (cache0.get now cacheKey).2
  match cached with
  | some v => ⟨.ok (v, true), cache1, 0⟩
  | none =>
    match fetchResult with
    | .ok s =>
      ⟨.ok (s.data, false), cache1.set now cacheKey (some s.data), 1⟩
    | .error e => ⟨.error (remapWeatherError cityName e), cache1, 1⟩

/-! ## Paginated city client (`getCitiesPaginated`) -/

def MOCK_API_URL : String := "http://localhost:3001"

/-- `` `${MOCK_API_URL}/cities?_page=${page}&_limit=${limit}` `` -/
def citiesUrl (page limit : Nat) : String :=
  s!"{MOCK_API_URL}/cities?_page={page}&_limit={limit}"

/-- The `result` object assembled by `getCitiesPaginated`.  `total = none`
models the `NaN` a failing `parseInt` would produce. -/
structure PageResult (β : Type) where
  data : List β
  page : Nat
  limit : Nat
  total : Option Nat
  hasMore : Bool
  fromCache : Bool
  cacheHit : Bool
  deriving Repr, DecidableEq

/-- Observable outcome of one `getCitiesPaginated` call: the returned page
or thrown error, the ETag cache state after the call, the `If-None-Match`
value attached to the request (if any), and the attempt count and backoff
delays of the underlying `fetchWithRetry` call. -/
structure CitiesCallResult (β : Type) where
  outcome : Except JSError (PageResult β)
  etags : ETagCache (PageResult β)
  sentIfNoneMatch : Option String
  attemptsMade : Nat
  delays : List Nat
  deriving Repr

/-- `getCitiesPaginated({ page, limit, signal, useETag })`.

The environment `events` is a function of the `If-None-Match` header the
client attaches (`none` when no conditional header is sent), mirroring that
the server's answer may depend on the validator it receives.  The call uses
`retries = 2`, `backoffMs = 500`.

On a `status === 304` response the source spreads the cached payload; the
`getData` miss arm of that branch mirrors `{ ...null, fromCache, cacheHit }`
(an object carrying only the two flags) — that arm is dead in practice
because `fetchWithRetry` only ever returns 2xx responses, 304 being non-ok
and classified as an error. -/
def getCitiesPaginated {β : Type} (etags0 : ETagCache (PageResult β))
    (page limit : Nat) (useETag : Bool)
    (events : Option String → Nat → AttemptEvent (List β))
    (sig : Nat → Bool) (now : Nat) : CitiesCallResult β :=
  let url := citiesUrl page limit
  let inm : Option String :=
    if useETag ∧ etags0.has url then
      match etags0.getETag url with
      | some etag => if etag ≠ "" then some etag else none
      | none => none
    else none
  let log := fetchWithRetry (events inm) sig 2 500
  match log.result with
  | .ok s =>
    if s.status = 304 then
      match etags0.getData url with
      | some cachedData =>
        ⟨.ok { cachedData with fromCache := true, cacheHit := true },
          etags0, inm, log.attemptsMade, log.delays⟩
      | none =>
        ⟨.ok { data := [], page := 0, limit := 0, total := none,
               hasMore := false, fromCache := true, cacheHit := true },
          etags0, inm, log.attemptsMade, log.delays⟩
    else
      let result : PageResult β :=
        { data := s.data, page := page, limit := limit,
          total :=
            match s.headers.xTotalCount with
            | some t => if t ≠ "" then jsParseInt t else some s.data.length
            | none => some s.data.length,
          hasMore :=
            match s.headers.link with
            | some l => strIncludes l "rel=\"next\""
            | none => false,
          fromCache := false, cacheHit := false }
      let etags1 :=
        match s.headers.etag with
        | some e => if useETag ∧ e ≠ "" then etags0.set url e result now
                    else etags0
        | none => etags0
      ⟨.ok result, etags1, inm, log.attemptsMade, log.delays⟩
  | .error e =>
    let err :=
      if e.isNetworkError then e
      else if e.isBusinessError then e
      else NetworkError ("Ошибка при загрузке городов: " ++ e.message) none
    ⟨.error err, etags0, inm, log.attemptsMade, log.delays⟩

/-! ## Theorems -/

/-- Deleting every binding of a key from an association list makes a
subsequent lookup of that key miss. -/
theorem lookup_filter_ne_self {γ : Type} (k : String)
    (l : List (String × γ)) :
    (l.filter (fun p => p.1 != k)).lookup k = none := by
  induction l with
  | nil => rfl
  | cons p t ih =>
    obtain ⟨a, b⟩ := p
    by_cases h : a = k
    · simp [h, ih]
    · have hk : (k == a) = false := by
        simp [Ne.symm h]
      simp [List.filter_cons, List.lookup, h, hk, ih]

/-- C7: `set(k, v)` then an immediate `get(k)` returns `v`; once the clock
has passed the entry's expiry (`now + ttlMs < now2`), `get(k)` returns
absent and removes the entry from the underlying map, `has(k)` is false and
likewise evicts; and in general `has` is exactly "`get` is present",
returning the same post-call cache state. -/
theorem cacheWithTTL_ttl_spec {α : Type} (c : CacheWithTTL α) (k : String)
    (v : α) (now now2 : Nat) (h : now + c.ttlMs < now2) :
    ((c.set now k (some v)).get now k).1 = some v
    ∧ ((c.set now k (some v)).get now2 k).1 = none
    ∧ ((c.set now k (some v)).get now2 k).2.hasEntry k = false
    ∧ ((c.set now k (some v)).has now2 k).1 = false
    ∧ ((c.set now k (some v)).has now2 k).2.hasEntry k = false
    ∧ ∀ (c' : CacheWithTTL α) (t : Nat) (key : String),
        (c'.has t key).1 = ((c'.get t key).1).isSome
        ∧ (c'.has t key).2 = (c'.get t key).2 := by
  have hget2 : ((c.set now k (some v)).get now2 k) =
      (none, { c.set now k (some v) with cache :=
        ((c.set now k (some v)).cache.filter (fun p => p.1 != k)) }) := by
    simp [CacheWithTTL.set, CacheWithTTL.get, List.lookup, h]
  refine ⟨?_, ?_, ?_, ?_, ?_, ?_⟩
  · simp [CacheWithTTL.set, CacheWithTTL.get, List.lookup,
      show ¬(now + c.ttlMs < now) by omega]
  · rw [hget2]
  · rw [hget2]
    simp [CacheWithTTL.hasEntry, lookup_filter_ne_self]
  · simp [CacheWithTTL.has, hget2]
  · simp [CacheWithTTL.has, hget2, CacheWithTTL.hasEntry,
      lookup_filter_ne_self]
  · exact fun c' t key => ⟨rfl, rfl⟩

/-- C7 witness: a fresh cache with a 1000 ms TTL, written at time 5 and read
back at times 5 and 2000. -/
theorem cacheWithTTL_ttl_spec_witness :
    5 + (CacheWithTTL.empty 1000 : CacheWithTTL Nat).ttlMs < 2000
    ∧ ((((CacheWithTTL.empty 1000 : CacheWithTTL Nat).set 5 "k"
          (some 42)).get 5 "k").1 = some 42
      ∧ (((CacheWithTTL.empty 1000 : CacheWithTTL Nat).set 5 "k"
          (some 42)).get 2000 "k").1 = none
      ∧ (((CacheWithTTL.empty 1000 : CacheWithTTL Nat).set 5 "k"
          (some 42)).get 2000 "k").2.hasEntry "k" = false
      ∧ (((CacheWithTTL.empty 1000 : CacheWithTTL Nat).set 5 "k"
          (some 42)).has 2000 "k").1 = false
      ∧ (((CacheWithTTL.empty 1000 : CacheWithTTL Nat).set 5 "k"
          (some 42)).has 2000 "k").2.hasEntry "k" = false
      ∧ ∀ (c' : CacheWithTTL Nat) (t : Nat) (key : String),
          (c'.has t key).1 = ((c'.get t key).1).isSome
          ∧ (c'.has t key).2 = (c'.get t key).2) :=
  ⟨by decide, cacheWithTTL_ttl_spec (CacheWithTTL.empty 1000) "k" 42 5 2000
    (by decide)⟩

/-- C9: after `set(k, null)` the public interface cannot tell the entry from
an absent one — `get(k)` returns `null` and `has(k)` is false at every
read time, even though (while unexpired) the underlying map still
physically holds the entry. -/
theorem cacheWithTTL_null_value_spec {α : Type} (c : CacheWithTTL α)
    (k : String) (now now2 : Nat) :
    ((c.set now k none).get now2 k).1 = none
    ∧ ((c.set now k none).has now2 k).1 = false
    ∧ (now2 ≤ now + c.ttlMs →
        ((c.set now k none).get now2 k).2.hasEntry k = true) := by
  by_cases hexp : now + c.ttlMs < now2
  · refine ⟨?_, ?_, ?_⟩
    · simp [CacheWithTTL.set, CacheWithTTL.get, List.lookup, hexp]
    · simp [CacheWithTTL.has, CacheWithTTL.set, CacheWithTTL.get,
        List.lookup, hexp]
    · intro hle; omega
  · refine ⟨?_, ?_, ?_⟩
    · simp [CacheWithTTL.set, CacheWithTTL.get, List.lookup, hexp]
    · simp [CacheWithTTL.has, CacheWithTTL.set, CacheWithTTL.get,
        List.lookup, hexp]
    · intro _
      simp [CacheWithTTL.set, CacheWithTTL.get, List.lookup, hexp,
        CacheWithTTL.hasEntry]

/-- C9 witness: storing `null` at time 5 and reading back at time 5,
well before the 1000 ms TTL elapses. -/
theorem cacheWithTTL_null_value_spec_witness :
    (((CacheWithTTL.empty 1000 : CacheWithTTL Nat).set 5 "k" none).get 5
        "k").1 = none
    ∧ (((CacheWithTTL.empty 1000 : CacheWithTTL Nat).set 5 "k" none).has 5
        "k").1 = false
    ∧ (((CacheWithTTL.empty 1000 : CacheWithTTL Nat).set 5 "k" none).get 5
        "k").2.hasEntry "k" = true :=
  ⟨(cacheWithTTL_null_value_spec (CacheWithTTL.empty 1000) "k" 5 5).1,
   (cacheWithTTL_null_value_spec (CacheWithTTL.empty 1000) "k" 5 5).2.1,
   (cacheWithTTL_null_value_spec (CacheWithTTL.empty 1000) "k" 5 5).2.2
     (by decide)⟩

/-- C3: every non-2xx response is classified inside the attempt, before any
retry logic, by the fixed table: status ≥ 500 ⟶ `NetworkError` carrying the
status; 404 ⟶ `BusinessError NOT_FOUND`; 401/403 ⟶ `BusinessError
AUTH_ERROR`; 429 ⟶ `BusinessError RATE_LIMIT` carrying 429; any other
non-2xx ⟶ `NetworkError` carrying the status. -/
theorem fetchWithRetry_status_classification {α : Type} (r : Response α)
    (h : r.ok = false) :
    runAttempt (AttemptEvent.response r)
      = .error (classifyStatus r.status r.statusText)
    ∧ (500 ≤ r.status →
        (classifyStatus r.status r.statusText).isNetworkError = true
        ∧ (classifyStatus r.status r.statusText).statusCode = some r.status)
    ∧ (r.status = 404 →
        (classifyStatus r.status r.statusText).isBusinessError = true
        ∧ (classifyStatus r.status r.statusText).code = some "NOT_FOUND")
    ∧ (r.status = 401 ∨ r.status = 403 →
        (classifyStatus r.status r.statusText).isBusinessError = true
        ∧ (classifyStatus r.status r.statusText).code = some "AUTH_ERROR")
    ∧ (r.status = 429 →
        (classifyStatus r.status r.statusText).isBusinessError = true
        ∧ (classifyStatus r.status r.statusText).code = some "RATE_LIMIT"
        ∧ (classifyStatus r.status r.statusText).statusCode = some 429)
    ∧ (r.status < 500 ∧ r.status ≠ 404 ∧ r.status ≠ 401 ∧ r.status ≠ 403
        ∧ r.status ≠ 429 →
        (classifyStatus r.status r.statusText).isNetworkError = true
        ∧ (classifyStatus r.status r.statusText).statusCode
            = some r.status) := by
  refine ⟨?_, ?_, ?_, ?_, ?_, ?_⟩
  · simp [runAttempt, h]
  · intro h5
    simp [classifyStatus, h5, NetworkError]
  · intro h4
    simp [classifyStatus, h4, BusinessError]
  · rintro (h4 | h4) <;>
      simp [classifyStatus, h4, BusinessError]
  · intro h4
    simp [classifyStatus, h4, BusinessError]
  · rintro ⟨h1, h2, h3, h4, h5⟩
    simp [classifyStatus, NetworkError, h2, h3, h4, h5,
      show ¬(500 ≤ r.status) by omega]

/-- C3 witness: a 404 response, which is not ok and classifies as
`BusinessError NOT_FOUND`. -/
theorem fetchWithRetry_status_classification_witness :
    (Response.ok (⟨404, "Not Found", ⟨none, none, none⟩, (0 : Nat)⟩ :
        Response Nat) = false)
    ∧ (runAttempt (AttemptEvent.response
          (⟨404, "Not Found", ⟨none, none, none⟩, (0 : Nat)⟩ : Response Nat))
        = .error (classifyStatus 404 "Not Found")
      ∧ (500 ≤ 404 →
          (classifyStatus 404 "Not Found").isNetworkError = true
          ∧ (classifyStatus 404 "Not Found").statusCode = some 404)
      ∧ (404 = 404 →
          (classifyStatus 404 "Not Found").isBusinessError = true
          ∧ (classifyStatus 404 "Not Found").code = some "NOT_FOUND")
      ∧ (404 = 401 ∨ 404 = 403 →
          (classifyStatus 404 "Not Found").isBusinessError = true
          ∧ (classifyStatus 404 "Not Found").code = some "AUTH_ERROR")
      ∧ (404 = 429 →
          (classifyStatus 404 "Not Found").isBusinessError = true
          ∧ (classifyStatus 404 "Not Found").code = some "RATE_LIMIT"
          ∧ (classifyStatus 404 "Not Found").statusCode = some 429)
      ∧ (404 < 500 ∧ 404 ≠ 404 ∧ 404 ≠ 401 ∧ 404 ≠ 403 ∧ 404 ≠ 429 →
          (classifyStatus 404 "Not Found").isNetworkError = true
          ∧ (classifyStatus 404 "Not Found").statusCode = some 404)) :=
  ⟨rfl, fetchWithRetry_status_classification
    (⟨404, "Not Found", ⟨none, none, none⟩, (0 : Nat)⟩ : Response Nat) rfl⟩

/-- C10: the `BusinessError` raised for a 404 and for a 401/403 response
carries `statusCode = null`; only the 429 `BusinessError` records its HTTP
status (429).  The last conjunct shows `fetchWithRetry` surfacing the
404 error with `statusCode = none` whatever retries remain. -/
theorem businessError_statusCode_fields (t : String) :
    (classifyStatus 404 t).statusCode = none
    ∧ (classifyStatus 404 t).code = some "NOT_FOUND"
    ∧ (classifyStatus 401 t).statusCode = none
    ∧ (classifyStatus 401 t).code = some "AUTH_ERROR"
    ∧ (classifyStatus 403 t).statusCode = none
    ∧ (classifyStatus 403 t).code = some "AUTH_ERROR"
    ∧ (classifyStatus 429 t).statusCode = some 429
    ∧ (classifyStatus 429 t).code = some "RATE_LIMIT"
    ∧ (fetchWithRetry
        (fun _ => AttemptEvent.response
          (⟨404, t, ⟨none, none, none⟩, (0 : Nat)⟩ : Response Nat))
        (fun _ => false) 2 500).result
      = .error (BusinessError "Ресурс не найден (404)" (some "NOT_FOUND")
          none) :=
  ⟨rfl, rfl, rfl, rfl, rfl, rfl, rfl, rfl, rfl⟩

/-- C4: with `retries = 2` against a server answering 500 on the first two
attempts and 200 on the third, the call succeeds with the third attempt's
data, makes exactly 3 attempts, sleeps `backoffMs * 2 ^ 0` before the second
attempt and `backoffMs * 2 ^ 1` before the third, and the delays total
`backoffMs * (1 + 2)`. -/
theorem fetchWithRetry_backoff_schedule {α : Type} (b0 b1 b2 : α)
    (hd0 hd1 hd2 : Headers) (st0 st1 st2 : String) (backoffMs : Nat) :
    fetchWithRetry
      (fun i =>
        if i = 0 then AttemptEvent.response ⟨500, st0, hd0, b0⟩
        else if i = 1 then AttemptEvent.response ⟨500, st1, hd1, b1⟩
        else AttemptEvent.response ⟨200, st2, hd2, b2⟩)
      (fun _ => false) 2 backoffMs
      = ⟨3, [backoffMs * 2 ^ 0, backoffMs * 2 ^ 1], .ok ⟨b2, hd2, 200⟩⟩
    ∧ ([backoffMs * 2 ^ 0, backoffMs * 2 ^ 1]).sum = backoffMs * (1 + 2) := by
  constructor
  · rfl
  · simp [List.sum]
    ring

/-- C5: a business-classified failure of the first attempt (with the
external token not triggered) is rethrown at once: exactly one attempt is
made and no backoff is slept, no matter how many retries were allowed. -/
theorem fetchWithRetry_business_error_no_retry {α : Type}
    (events : Nat → AttemptEvent α) (sig : Nat → Bool)
    (retries backoffMs : Nat) (e : JSError)
    (h1 : runAttempt (events 0) = .error e)
    (h2 : e.isBusinessError = true)
    (h3 : sig 0 = false)
    (h4 : e.name ≠ "AbortError") :
    fetchWithRetry events sig retries backoffMs = ⟨1, [], .error e⟩ := by
  unfold fetchWithRetry
  simp [fetchLoop, h1, h2, h3, h4]

/-- C5 witness: a 404 response with `retries = 2` yields the `NOT_FOUND`
business error after exactly one attempt. -/
theorem fetchWithRetry_business_error_no_retry_witness :
    runAttempt
      ((fun _ => AttemptEvent.response
        (⟨404, "Not Found", ⟨none, none, none⟩, (0 : Nat)⟩ : Response Nat)) 0)
      = .error (BusinessError "Ресурс не найден (404)" (some "NOT_FOUND")
          none)
    ∧ fetchWithRetry
        (fun _ => AttemptEvent.response
          (⟨404, "Not Found", ⟨none, none, none⟩, (0 : Nat)⟩ : Response Nat))
        (fun _ => false) 2 500
      = ⟨1, [], .error (BusinessError "Ресурс не найден (404)"
          (some "NOT_FOUND") none)⟩ :=
  ⟨rfl, fetchWithRetry_business_error_no_retry _ _ 2 500 _ rfl rfl rfl
    (by decide)⟩

/-- C6: whenever an attempt's failure is observed with the external token
already triggered, or the failure itself is an abort signal, the loop throws
`NetworkError` with the cancellation message `"Запрос был отменен"`
("request was cancelled") at once — no backoff, no further attempt — and in
particular a first-attempt cancellation ends the whole call after one
attempt regardless of `retries`. -/
theorem fetchWithRetry_cancellation {α : Type}
    (events : Nat → AttemptEvent α) (sig : Nat → Bool)
    (retries backoffMs fuel attempt : Nat) (delays : List Nat)
    (le : Option JSError) (e : JSError)
    (h1 : runAttempt (events attempt) = .error e)
    (h2 : sig attempt = true ∨ e.name = "AbortError") :
    fetchLoop events sig retries backoffMs (fuel + 1) attempt delays le
      = ⟨attempt + 1, delays,
          .error (NetworkError "Запрос был отменен" none)⟩
    ∧ (attempt = 0 →
        fetchWithRetry events sig retries backoffMs
          = ⟨1, [], .error (NetworkError "Запрос был отменен" none)⟩) := by
  constructor
  · rcases h2 with h | h <;> simp [fetchLoop, h1, h]
  · intro ha
    subst ha
    unfold fetchWithRetry
    rcases h2 with h | h <;> simp [fetchLoop, h1, h]

/-- C6 witness: the first attempt rejects with an `AbortError` (the shape a
triggered token or a timeout produces) and the call fails as cancelled after
one attempt with `retries = 5`. -/
theorem fetchWithRetry_cancellation_witness :
    runAttempt
      ((fun _ => (AttemptEvent.reject "AbortError"
        "The user aborted a request." : AttemptEvent Nat)) 0)
      = .error (rawError "AbortError" "The user aborted a request.")
    ∧ (fetchLoop
        (fun _ => (AttemptEvent.reject "AbortError"
          "The user aborted a request." : AttemptEvent Nat))
        (fun _ => false) 5 500 (2 + 1) 0 [] none
        = ⟨1, [], .error (NetworkError "Запрос был отменен" none)⟩
      ∧ (0 = 0 →
          fetchWithRetry
            (fun _ => (AttemptEvent.reject "AbortError"
              "The user aborted a request." : AttemptEvent Nat))
            (fun _ => false) 5 500
            = ⟨1, [], .error (NetworkError "Запрос был отменен" none)⟩)) :=
  ⟨rfl, fetchWithRetry_cancellation _ _ 5 500 2 0 [] none _ rfl
    (Or.inr rfl)⟩

/-- C2: the retry condition of the loop is
`attempt < retries && error.isNetworkError`, and `isNetworkError` is set
only on errors constructed by the HTTP-status classification — so a
transport-level connectivity failure (a raw `TypeError` rejection of
`fetch`) is *not* retried even with `retries = 2` remaining: the loop breaks
after one attempt and wraps the error.  A timeout, surfacing as an
`AbortError` rejection with the external token untriggered, is likewise
thrown as a cancellation after one attempt instead of being retried. -/
theorem fetchWithRetry_transport_failure_not_retried :
    fetchWithRetry
      (fun _ => (AttemptEvent.reject "TypeError" "Failed to fetch" :
        AttemptEvent Nat))
      (fun _ => false) 2 500
      = ⟨1, [], .error (NetworkError
          "Не удалось выполнить запрос после 3 попыток: Failed to fetch"
          none)⟩
    ∧ fetchWithRetry
        (fun _ => (AttemptEvent.reject "AbortError"
          "The operation was aborted." : AttemptEvent Nat))
        (fun _ => false) 2 500
      = ⟨1, [], .error (NetworkError "Запрос был отменен" none)⟩ :=
  ⟨rfl, rfl⟩

/-- C1: `fetchWithRetry` treats a 304 response as non-ok, classifies it as
`NetworkError "HTTP 304: Not Modified"` and even retries it, so the
`response.status === 304` branch of `getCitiesPaginated` is unreachable:
with validator `"v1"` cached for the exact URL and `useETag = true`, a
server answering 304 to the conditional request makes the call *fail* with
that network error after 3 attempts, instead of returning the cached page
tagged `fromCache = true, cacheHit = true`. -/
theorem getCitiesPaginated_304_conditional_hit_fails :
    (getCitiesPaginated
        (ETagCache.set ETagCache.empty (citiesUrl 1 10) "v1"
          ⟨[1, 2, 3], 1, 10, some 30, true, false, false⟩ 17)
        1 10 true
        (fun _ _ => AttemptEvent.response
          ⟨304, "Not Modified", ⟨none, none, none⟩, ([] : List Nat)⟩)
        (fun _ => false) 99).sentIfNoneMatch = some "v1"
    ∧ (getCitiesPaginated
        (ETagCache.set ETagCache.empty (citiesUrl 1 10) "v1"
          ⟨[1, 2, 3], 1, 10, some 30, true, false, false⟩ 17)
        1 10 true
        (fun _ _ => AttemptEvent.response
          ⟨304, "Not Modified", ⟨none, none, none⟩, ([] : List Nat)⟩)
        (fun _ => false) 99).attemptsMade = 3
    ∧ (getCitiesPaginated
        (ETagCache.set ETagCache.empty (citiesUrl 1 10) "v1"
          ⟨[1, 2, 3], 1, 10, some 30, true, false, false⟩ 17)
        1 10 true
        (fun _ _ => AttemptEvent.response
          ⟨304, "Not Modified", ⟨none, none, none⟩, ([] : List Nat)⟩)
        (fun _ => false) 99).delays = [500, 1000]
    ∧ (getCitiesPaginated
        (ETagCache.set ETagCache.empty (citiesUrl 1 10) "v1"
          ⟨[1, 2, 3], 1, 10, some 30, true, false, false⟩ 17)
        1 10 true
        (fun _ _ => AttemptEvent.response
          ⟨304, "Not Modified", ⟨none, none, none⟩, ([] : List Nat)⟩)
        (fun _ => false) 99).outcome
      = .error (NetworkError "HTTP 304: Not Modified" (some 304)) :=
  ⟨rfl, rfl, rfl, rfl⟩

/-- C8: the weather client keys its TTL cache by the lower-cased, namespaced
city name (so two spellings differing only in case share an entry); with
`ignoreCache = false` a cache hit returns the cached payload tagged
`fromCache = true` with zero network calls; with `ignoreCache = true` the
cache is not even read and a successful fetch is written back under the same
key and returned tagged `fromCache = false`; and on a cache miss the fetch
result is likewise written back and tagged `fromCache = false`. -/
theorem getWeatherByCity_cache_spec {α : Type} (city : String)
    (cache0 : CacheWithTTL α) (now : Nat)
    (fr : Except JSError (FetchSuccess α)) :
    weatherCacheKey city = "weather_" ++ jsToLowerCase city
    ∧ (∀ city2 : String, jsToLowerCase city = jsToLowerCase city2 →
        weatherCacheKey city = weatherCacheKey city2)
    ∧ (∀ (v : α) (c1 : CacheWithTTL α),
        cache0.get now (weatherCacheKey city) = (some v, c1) →
        getWeatherByCity city false cache0 now fr
          = ⟨.ok (v, true), c1, 0⟩)
    ∧ (∀ s : FetchSuccess α, fr = .ok s →
        getWeatherByCity city true cache0 now fr
          = ⟨.ok (s.data, false),
              cache0.set now (weatherCacheKey city) (some s.data), 1⟩)
    ∧ (∀ (c1 : CacheWithTTL α) (s : FetchSuccess α),
        cache0.get now (weatherCacheKey city) = (none, c1) → fr = .ok s →
        getWeatherByCity city false cache0 now fr
          = ⟨.ok (s.data, false),
              c1.set now (weatherCacheKey city) (some s.data), 1⟩) := by
  refine ⟨rfl, ?_, ?_, ?_, ?_⟩
  · intro city2 hlow
    simp [weatherCacheKey, hlow]
  · intro v c1 hget
    simp [getWeatherByCity, hget]
  · intro s hfr
    subst hfr
    simp [getWeatherByCity]
  · intro c1 s hget hfr
    subst hfr
    simp [getWeatherByCity, hget]

/-- C8 witness: a cache primed under key `"weather_moscow"` is hit by a
lookup for `"Moscow"` with no network call, and an `ignoreCache = true` call
for the same city fetches and writes the fresh payload back. -/
theorem getWeatherByCity_cache_spec_witness :
    ((CacheWithTTL.empty 600000 : CacheWithTTL Nat).set 0 "weather_moscow"
        (some 99)).get 1 (weatherCacheKey "Moscow")
      = (some 99,
        (CacheWithTTL.empty 600000 : CacheWithTTL Nat).set 0
          "weather_moscow" (some 99))
    ∧ getWeatherByCity "Moscow" false
        ((CacheWithTTL.empty 600000 : CacheWithTTL Nat).set 0
          "weather_moscow" (some 99)) 1
        (.ok ⟨77, ⟨none, none, none⟩, 200⟩)
      = ⟨.ok (99, true),
          (CacheWithTTL.empty 600000 : CacheWithTTL Nat).set 0
            "weather_moscow" (some 99), 0⟩
    ∧ getWeatherByCity "Moscow" true
        ((CacheWithTTL.empty 600000 : CacheWithTTL Nat).set 0
          "weather_moscow" (some 99)) 1
        (.ok ⟨77, ⟨none, none, none⟩, 200⟩)
      = ⟨.ok (77, false),
          ((CacheWithTTL.empty 600000 : CacheWithTTL Nat).set 0
            "weather_moscow" (some 99)).set 1 (weatherCacheKey "Moscow")
            (some 77), 1⟩ :=
  ⟨by rfl,
   (getWeatherByCity_cache_spec "Moscow"
      ((CacheWithTTL.empty 600000 : CacheWithTTL Nat).set 0 "weather_moscow"
        (some 99)) 1 (.ok ⟨77, ⟨none, none, none⟩, 200⟩)).2.2.1 99 _
      (by rfl),
   (getWeatherByCity_cache_spec "Moscow"
      ((CacheWithTTL.empty 600000 : CacheWithTTL Nat).set 0 "weather_moscow"
        (some 99)) 1 (.ok ⟨77, ⟨none, none, none⟩, 200⟩)).2.2.2.1
      ⟨77, ⟨none, none, none⟩, 200⟩ rfl⟩

end WeatherApp
